import Mathlib

/-!
# simpletls: `Config` and `Listen`

A shallow embedding of `src/tls.go` (package `simpletls`).

* Go strings are byte sequences: `GoString := List UInt8`.
* A Go result pair `(*T, error)` is a pair of options, `none` standing for `nil`.
* The process-wide variables `FlagAutocert`, `TLSKey`, `TLSCert`, `CertCache`
  are the fields of `Globals`.
* The operating system (file system, network stack) is an abstract state `σ`
  with the two operations the package performs on it (`OS σ`).
* `World σ` carries the operating-system state, the allocation counter of the
  heap and the trace of the calls the package makes.
-/

set_option autoImplicit false
set_option linter.dupNamespace false

namespace simpletls

/-! ## Strings -/

/-- A Go `byte`. -/
abbrev Byte := UInt8

/-- A Go `string`: an immutable sequence of bytes. -/
abbrev GoString := List Byte

/-- The bytes of a string literal (UTF-8, as Go source text is). -/
def str (s : String) : GoString := s.toUTF8.data.toList

/-- The byte `':'`. -/
def colon : Byte := 58

/-- The byte `'['`. -/
def lbrack : Byte := 91

/-- The byte `']'`. -/
def rbrack : Byte := 93

/-- Go `strings.HasPrefix(s, p)`. -/
def strings.HasPrefix : GoString → GoString → Bool
  | _, [] => true
  | [], _ :: _ => false
  | b :: s, c :: p => b == c && strings.HasPrefix s p

/-- Go `strings.Contains(s, substr)`: `substr` occurs in `s` at some offset. -/
def strings.Contains : GoString → GoString → Bool
  | [], substr => strings.HasPrefix [] substr
  | b :: s, substr => strings.HasPrefix (b :: s) substr || strings.Contains s substr

/-- Go `bytealg.IndexByteString(s, c)`: offset of the first `c` in `s`;
`none` stands for the result `-1`. -/
def IndexByteString : GoString → Byte → Option Nat
  | [], _ => none
  | b :: s, c => if b = c then some 0 else (IndexByteString s c).map (· + 1)

/-- Go `bytealg.LastIndexByteString(s, c)`: offset of the last `c` in `s`;
`none` stands for the result `-1`. -/
def LastIndexByteString : GoString → Byte → Option Nat
  | [], _ => none
  | b :: s, c =>
    match LastIndexByteString s c with
    | some i => some (i + 1)
    | none => if b = c then some 0 else none

/-- Go slice expression `s[lo:hi]`. -/
def slice (s : GoString) (lo hi : Nat) : GoString := (s.take hi).drop lo

/-! ## Errors -/

/-- The Go `error` values that occur in the package.

* `AddrError` is `&net.AddrError{Err: Err, Addr: Addr}`.
* `Errorf1 format a` is the value of `fmt.Errorf(format, a)` for an error `a`.
* `Errorf2 format s a` is the value of `fmt.Errorf(format, s, a)` for a string
  `s` and an error `a`.
* `ErrorfStr format s` is the value of `fmt.Errorf(format, s)` for a string `s`.
* `foreign msg` is an error made by an imported package (`crypto/tls`, `net`).
-/
inductive GoError where
  | AddrError (Err : GoString) (Addr : GoString)
  | Errorf1 (format : GoString) (a : GoError)
  | Errorf2 (format : GoString) (s : GoString) (a : GoError)
  | ErrorfStr (format : GoString) (s : GoString)
  | foreign (msg : GoString)
  deriving DecidableEq, Repr

/-- The error is a `*net.AddrError`, the type of the address parse errors. -/
def GoError.isAddrError : GoError → Bool
  | .AddrError _ _ => true
  | _ => false

/-! ## `net.SplitHostPort` -/

/-- Modelled from the spec: `net.SplitHostPort` (Go standard library, file
`net/ipsock.go`) is called by `Config` and is not under `src/`. The spec says
of it that it "splits host and port" and that "a malformed address
(unparseable host:port) fails" with the underlying parse failure; the body
follows the standard library's function statement by statement.

    func SplitHostPort(hostport string) (host, port string, err error) -/
def net.SplitHostPort (hostport : GoString) : GoString × GoString × Option GoError :=
  let missingPort := str "missing port in address"
  let tooManyColons := str "too many colons in address"
  let addrErr := fun (addr why : GoString) =>
    ((str "", str "", some (GoError.AddrError why addr)) : GoString × GoString × Option GoError)
  -- The port starts after the last colon.
  match LastIndexByteString hostport colon with
  | none => addrErr hostport missingPort
  | some i =>
    -- the statements after the if/else, reached with `host`, `j` and `k` set
    let rest := fun (host : GoString) (j k : Nat) =>
      if (IndexByteString (hostport.drop j) lbrack).isSome then
        addrErr hostport (str "unexpected '[' in address")
      else if (IndexByteString (hostport.drop k) rbrack).isSome then
        addrErr hostport (str "unexpected ']' in address")
      else
        (host, hostport.drop (i + 1), none)
    if hostport.head? = some lbrack then
      -- Expect the first ']' just before the last ':'.
      match IndexByteString hostport rbrack with
      | none => addrErr hostport (str "missing ']' in address")
      | some end_ =>
        if end_ + 1 = hostport.length then
          -- There can't be a ':' behind the ']' now.
          addrErr hostport missingPort
        else if end_ + 1 = i then
          -- The expected result.
          -- there can't be a '[' resp. ']' before these positions
          rest (slice hostport 1 end_) 1 (end_ + 1)
        else
          -- Either ']' isn't followed by a colon, or it is
          -- followed by a colon that is not the last one.
          if hostport.get? (end_ + 1) = some colon then
            addrErr hostport tooManyColons
          else
            addrErr hostport missingPort
    else
      let host := slice hostport 0 i
      if (IndexByteString host colon).isSome then
        addrErr hostport tooManyColons
      else
        rest host 0 0

/-! ## The imported types -/

/-- An `io.Reader` value; the package uses `crypto/rand.Reader` only. -/
inductive Reader where
  | rand_Reader
  deriving DecidableEq, Repr

/-- A `func() time.Time` value; the package uses `time.Now` only. -/
inductive TimeFunc where
  | time_Now
  deriving DecidableEq, Repr

/-- A `tls.Certificate`: the certificate chain and the private key. -/
structure tls.Certificate where
  Certificate : List GoString
  PrivateKey : GoString
  deriving DecidableEq, Repr

/-- A value of `autocert.Manager.Prompt`; the package uses `autocert.AcceptTOS` only. -/
inductive autocert.Prompt where
  | AcceptTOS
  deriving DecidableEq, Repr

/-- An `autocert.HostPolicy` value: `HostWhitelist hosts` is the function
returned by the call `autocert.HostWhitelist(hosts...)`. -/
inductive autocert.HostPolicy where
  | HostWhitelist (hosts : List GoString)
  deriving DecidableEq, Repr

/-- An `autocert.Cache` value: `DirCache dir` is the conversion `autocert.DirCache(dir)`. -/
inductive autocert.Cache where
  | DirCache (dir : GoString)
  deriving DecidableEq, Repr

/-- The fields of `autocert.Manager` that the package sets; the others keep
their zero value. A `nil` function or interface is `none`. -/
structure autocert.Manager where
  Prompt : Option autocert.Prompt
  HostPolicy : Option autocert.HostPolicy
  Cache : Option autocert.Cache
  deriving DecidableEq, Repr

/-- A heap object: the address a pointer holds, and the value stored there. -/
structure Ref (α : Type) where
  addr : Nat
  val : α
  deriving DecidableEq, Repr

/-- A value of `tls.Config.GetCertificate`: `Manager_GetCertificate m` is the
method value `m.GetCertificate`, bound to the manager `m`. -/
inductive GetCertificateFunc where
  | Manager_GetCertificate (m : Ref autocert.Manager)
  deriving DecidableEq, Repr

/-- The fields of `tls.Config` that the package sets; the others keep their
zero value. A `nil` function or interface is `none`, a `nil` slice is `[]`. -/
structure tls.Config where
  Rand : Option Reader
  Time : Option TimeFunc
  Certificates : List tls.Certificate
  GetCertificate : Option GetCertificateFunc
  NextProtos : List GoString
  deriving DecidableEq, Repr

/-- The `net.Listener` that `net.Listen` returns: a bound TCP socket. -/
structure TCPListener where
  fd : Nat
  deriving DecidableEq, Repr

/-- The `net.Listener` that `tls.NewListener(inner, config)` returns:
`&listener{Listener: inner, config: config}`. -/
structure TLSListener where
  Listener : Option TCPListener
  config : Option (Ref tls.Config)
  deriving DecidableEq, Repr

/-- Go `tls.NewListener(inner, config)`. -/
def tls.NewListener (inner : Option TCPListener) (config : Option (Ref tls.Config)) :
    TLSListener :=
  { Listener := inner, config := config }

/-! ## The environment -/

/-- The package-level variables of `tls.go` (lines 21-29); `FlagAutocert` is
the value `*FlagAutocert`. -/
structure Globals where
  FlagAutocert : Bool
  TLSKey : GoString
  TLSCert : GoString
  CertCache : GoString
  deriving DecidableEq, Repr

/-- The operating system as the package uses it, over a state `σ` (files,
sockets): `LoadX509KeyPair st certFile keyFile` is the result pair of
`tls.LoadX509KeyPair(certFile, keyFile)`, which reads two files;
`Listen st network address` is the result pair of `net.Listen(network, address)`
and the state it leaves. -/
structure OS (σ : Type) where
  LoadX509KeyPair : σ → GoString → GoString → tls.Certificate × Option GoError
  Listen : σ → GoString → GoString → (Option TCPListener × Option GoError) × σ

/-- A call recorded in the trace, with its arguments. -/
inductive Call where
  | Config (hostport : GoString)
  | SplitHostPort (hostport : GoString)
  | LoadX509KeyPair (certFile keyFile : GoString)
  | netListen (network address : GoString)
  deriving DecidableEq, Repr

/-- The state a call runs in: the operating-system state, the next free heap
address, and the calls made so far (oldest first). -/
structure World (σ : Type) where
  os : σ
  nextAddr : Nat
  trace : List Call

/-- Record a call. -/
def World.call {σ : Type} (w : World σ) (c : Call) : World σ :=
  { w with trace := w.trace ++ [c] }

/-- Allocate a fresh heap object holding `v` (a composite literal whose
address is taken). -/
def World.new {σ α : Type} (w : World σ) (v : α) : Ref α × World σ :=
  ({ addr := w.nextAddr, val := v }, { w with nextAddr := w.nextAddr + 1 })

/-! ## `Config` and `Listen` -/

/-- Lines 34-41 of `Config`: the value of the local variable `hostname` when
control reaches line 42, with a `nil` error; or the error returned at line 38. -/
def Config.hostname {σ : Type} (hostport : GoString) (w : World σ) :
    (GoString × Option GoError) × World σ :=
  let hostname := hostport
  if strings.Contains hostname (str ":") then
    let w := w.call (.SplitHostPort hostname)
    match net.SplitHostPort hostname with
    | (_, _, some err) => ((hostname, some err), w)
    | (h, _, none) => ((h, none), w)
  else
    ((hostname, none), w)

/-- Go `func Config(hostport string) (*tls.Config, error)`, lines 33-65. -/
def Config {σ : Type} (sys : OS σ) (g : Globals) (hostport : GoString) (w : World σ) :
    (Option (Ref tls.Config) × Option GoError) × World σ :=
  let w := w.call (.Config hostport)
  match Config.hostname hostport w with
  | ((_, some err), w) => ((none, some err), w)
  | ((hostname, none), w) =>
    if g.FlagAutocert then
      let (m, w) := w.new
        ({ Prompt := some .AcceptTOS,
           HostPolicy := some (.HostWhitelist [hostname]),
           Cache := some (.DirCache g.CertCache) } : autocert.Manager)
      let (c, w) := w.new
        ({ Rand := some .rand_Reader,
           Time := some .time_Now,
           NextProtos := [str "http/1.1"],
           GetCertificate := some (.Manager_GetCertificate m),
           Certificates := [] } : tls.Config)
      ((some c, none), w)
    else
      let w := w.call (.LoadX509KeyPair g.TLSCert g.TLSKey)
      match sys.LoadX509KeyPair w.os g.TLSCert g.TLSKey with
      | (_, some err) => ((none, some (.Errorf1 (str "Failed to load TLS cert: %v") err)), w)
      | (cert, none) =>
        let (c, w) := w.new
          ({ Rand := some .rand_Reader,
             Time := some .time_Now,
             NextProtos := [str "http/1.1"],
             Certificates := [cert],
             GetCertificate := none } : tls.Config)
        ((some c, none), w)

/-- Go `func Listen(hostport string) (net.Listener, error)`, lines 68-78. -/
def Listen {σ : Type} (sys : OS σ) (g : Globals) (hostport : GoString) (w : World σ) :
    (Option TLSListener × Option GoError) × World σ :=
  match Config sys g hostport w with
  | ((_, some err), w) =>
    ((none, some (.Errorf1 (str "could not configure TLS connection: %v") err)), w)
  | ((tlsConfig, none), w) =>
    let w := w.call (.netListen (str "tcp") hostport)
    match sys.Listen w.os (str "tcp") hostport with
    | ((_, some err), os) =>
      ((none, some (.Errorf2 (str "could not listen on %q: %v") hostport err)),
        { w with os := os })
    | ((listener, none), os) =>
      ((some (tls.NewListener listener tlsConfig), none), { w with os := os })

/-! ## Imported behaviour that the specification speaks about -/

/-- An ASCII upper-case letter, `'A'` to `'Z'`. -/
def isUpper (b : Byte) : Bool := decide (65 ≤ b.toNat ∧ b.toNat ≤ 90)

/-- An ASCII lower-case letter, `'a'` to `'z'`. -/
def isLower (b : Byte) : Bool := decide (97 ≤ b.toNat ∧ b.toNat ≤ 122)

/-- An ASCII digit, `'0'` to `'9'`. -/
def isDigit (b : Byte) : Bool := decide (48 ≤ b.toNat ∧ b.toNat ≤ 57)

/-- The byte `'.'`. -/
def dot : Byte := 46

/-- The byte `'-'`. -/
def hyphen : Byte := 45

/-- The lower-case form of an ASCII letter; every other byte is unchanged. -/
def toLower (b : Byte) : Byte := if isUpper b then b + 32 else b

/-- An ASCII byte that is not a letter, a digit, `'-'` or `'.'`: the code points
that UTS 46 disallows under the STD3 rules. -/
def disallowedSTD3 (b : Byte) : Bool :=
  decide (b.toNat < 128) && !(isUpper b || isLower b || isDigit b || b == hyphen || b == dot)

/-- A name in lower-case ASCII letters, digits and dots only. -/
def lowerLDD (s : GoString) : Bool :=
  s.all fun b => isLower b || isDigit b || b == dot

/-- The call `h, err := idna.Lookup.ToASCII(s)` of package `golang.org/x/net/idna`
(imported by `autocert`, not under `src/`), as far as `autocert.HostWhitelist`
uses it: `some h` when `err == nil`, `none` when `err != nil`.

* A name with an ASCII byte that the STD3 rules disallow (`':'`, `'['`, `'_'`,
  a blank, ...) is rejected.
* A name of ASCII letters, digits and dots is mapped to lower case.
* Every other name (one with a hyphen or with a non-ASCII byte) is converted
  by `rest`, the part of the library that is not modelled (hyphen checks,
  Unicode mapping, Punycode). -/
def idna.Lookup.ToASCII (rest : GoString → Option GoString) (s : GoString) : Option GoString :=
  if s.any disallowedSTD3 then none
  else if s.all (fun b => isUpper b || isLower b || isDigit b || b == dot) then
    some (s.map toLower)
  else rest s

/-- The function returned by `autocert.HostWhitelist(hosts...)` (package
`golang.org/x/crypto/acme/autocert`, imported by `tls.go`, not under `src/`),
modelled on the library: each listed name is converted with
`idna.Lookup.ToASCII` and a name the conversion rejects is left out of the
whitelist; the policy returns `nil` for a name in the whitelist and otherwise
`fmt.Errorf("acme/autocert: host %q not configured in HostWhitelist", host)`. -/
def autocert.HostPolicy.call :
    autocert.HostPolicy → (GoString → Option GoString) → GoString → Option GoError
  | .HostWhitelist hosts, rest, host =>
    if host ∈ hosts.filterMap (idna.Lookup.ToASCII rest) then none
    else some (.ErrorfStr (str "acme/autocert: host %q not configured in HostWhitelist") host)

/-! ## Observations on results -/

/-- The manager behind a configuration's `GetCertificate`, if it has one. -/
def managerOf (c : Option (Ref tls.Config)) : Option autocert.Manager :=
  match c with
  | some { val := { GetCertificate := some (.Manager_GetCertificate m), .. }, .. } => some m.val
  | _ => none

/-- The names handed to `autocert.HostWhitelist` for a configuration. -/
def whitelistOf (c : Option (Ref tls.Config)) : Option (List GoString) :=
  match managerOf c with
  | some { HostPolicy := some (.HostWhitelist hosts), .. } => some hosts
  | _ => none

/-- The calls made between the worlds `w` and `w1`. -/
def callsSince {σ : Type} (w w1 : World σ) : List Call :=
  w1.trace.drop w.trace.length

/-- The call is a call of `Config`. -/
def Call.isConfig : Call → Bool
  | .Config _ => true
  | _ => false

/-- The call is a call of `net.SplitHostPort`. -/
def Call.isSplitHostPort : Call → Bool
  | .SplitHostPort _ => true
  | _ => false

/-- The call is a call of `tls.LoadX509KeyPair`. -/
def Call.isLoadX509KeyPair : Call → Bool
  | .LoadX509KeyPair _ _ => true
  | _ => false

/-- The call is a call of `net.Listen`. -/
def Call.isNetListen : Call → Bool
  | .netListen _ _ => true
  | _ => false

/-- The two objects of lines 43-53 of `Config`: the manager at address `a`, the
configuration at address `a + 1`. -/
def automatedConfig (g : Globals) (hostname : GoString) (a : Nat) : Ref tls.Config :=
  { addr := a + 1,
    val := { Rand := some .rand_Reader, Time := some .time_Now,
             NextProtos := [str "http/1.1"],
             GetCertificate := some (.Manager_GetCertificate
               { addr := a,
                 val := { Prompt := some .AcceptTOS,
                          HostPolicy := some (.HostWhitelist [hostname]),
                          Cache := some (.DirCache g.CertCache) } }),
             Certificates := [] } }

/-- The object of lines 59-64 of `Config`: the configuration at address `a`. -/
def staticConfig (cert : tls.Certificate) (a : Nat) : Ref tls.Config :=
  { addr := a,
    val := { Rand := some .rand_Reader, Time := some .time_Now,
             NextProtos := [str "http/1.1"], Certificates := [cert],
             GetCertificate := none } }

/-- Where the certificates of a configuration come from: in Automated mode the
whitelisted names and the cache, in Static mode the loaded certificates. -/
inductive CertSource where
  | automated (whitelist : Option (List GoString)) (cache : Option autocert.Cache)
  | static (certs : List tls.Certificate)
  deriving DecidableEq, Repr

/-- The certificate source of a configuration. -/
def certSourceOf (c : tls.Config) : CertSource :=
  match c.GetCertificate with
  | some (.Manager_GetCertificate m) =>
    .automated (m.val.HostPolicy.map fun | .HostWhitelist hosts => hosts) m.val.Cache
  | none => .static c.Certificates

/-- Two results of `Config` hold functionally equivalent configurations: both
are `nil`, or both have the same certificate source and the same protocol list. -/
def equivalent (a b : Option (Ref tls.Config)) : Prop :=
  a.map (fun c => (certSourceOf c.val, c.val.NextProtos))
    = b.map (fun c => (certSourceOf c.val, c.val.NextProtos))

instance (a b : Option (Ref tls.Config)) : Decidable (equivalent a b) :=
  inferInstanceAs (Decidable (_ = _))

/-! ## A small operating system for concrete runs -/

/-- The files that hold a valid PEM block, and the addresses with a socket bound. -/
structure DemoState where
  files : List GoString
  bound : List GoString
  deriving DecidableEq, Repr

/-- Loading succeeds when both files exist; binding succeeds on a free address. -/
def demoOS : OS DemoState where
  LoadX509KeyPair st certFile keyFile :=
    if certFile ∈ st.files ∧ keyFile ∈ st.files then
      ({ Certificate := [certFile], PrivateKey := keyFile }, none)
    else
      ({ Certificate := [], PrivateKey := [] },
        some (.foreign (str "open: no such file or directory")))
  Listen st _network address :=
    if address ∈ st.bound then
      ((none, some (.foreign (str "bind: address already in use"))), st)
    else
      ((some { fd := st.bound.length }, none), { st with bound := address :: st.bound })

/-- Package variables with `$HOME = /home/u`. -/
def demoGlobals (autocert : Bool) : Globals :=
  { FlagAutocert := autocert,
    TLSKey := str "/home/u/keys/key.pem",
    TLSCert := str "/home/u/keys/cert.pem",
    CertCache := str "/home/u/keys/letsencrypt.cache" }

/-- A world with the given files and bound addresses, an empty heap and an empty trace. -/
def demoWorld (files bound : List GoString) : World DemoState :=
  { os := { files := files, bound := bound }, nextAddr := 0, trace := [] }

/-! ## Lemmas on strings -/

theorem str_colon : str ":" = [colon] := by decide

theorem hasPrefix_singleton (s : GoString) (c : Byte) :
    strings.HasPrefix s [c] = true ↔ s.head? = some c := by
  cases s with
  | nil => simp [strings.HasPrefix]
  | cons b s => cases s <;> simp [strings.HasPrefix]

theorem contains_singleton (s : GoString) (c : Byte) :
    strings.Contains s [c] = true ↔ c ∈ s := by
  induction s with
  | nil => simp [strings.Contains, strings.HasPrefix]
  | cons b s ih =>
    simp only [strings.Contains, Bool.or_eq_true, ih, hasPrefix_singleton, List.mem_cons]
    simp [eq_comm]

theorem contains_colon_false (s : GoString) (h : colon ∉ s) :
    strings.Contains s (str ":") = false := by
  rw [str_colon]
  cases hc : strings.Contains s [colon] with
  | false => rfl
  | true => exact absurd ((contains_singleton s colon).1 hc) h

theorem indexByteString_eq_none (s : GoString) (c : Byte) (h : c ∉ s) :
    IndexByteString s c = none := by
  induction s with
  | nil => rfl
  | cons b s ih =>
    simp only [List.mem_cons, not_or] at h
    simp [IndexByteString, ih h.2, Ne.symm h.1]

theorem indexByteString_append (a b : GoString) (c : Byte) (h : c ∉ a) :
    IndexByteString (a ++ c :: b) c = some a.length := by
  induction a with
  | nil => simp [IndexByteString]
  | cons x a ih =>
    simp only [List.mem_cons, not_or] at h
    simp [IndexByteString, ih h.2, Ne.symm h.1]

theorem lastIndexByteString_eq_none (s : GoString) (c : Byte) (h : c ∉ s) :
    LastIndexByteString s c = none := by
  induction s with
  | nil => rfl
  | cons b s ih =>
    simp only [List.mem_cons, not_or] at h
    simp [LastIndexByteString, ih h.2, Ne.symm h.1]

theorem lastIndexByteString_append (a b : GoString) (c : Byte) (h : c ∉ b) :
    LastIndexByteString (a ++ c :: b) c = some a.length := by
  induction a with
  | nil => simp [LastIndexByteString, lastIndexByteString_eq_none b c h]
  | cons x a ih => simp [LastIndexByteString, ih]

/-! ## Lemmas on `net.SplitHostPort` -/

theorem head?_ne_of_not_mem (a b : GoString) (x c : Byte) (hx : x ≠ c) (h : c ∉ a) :
    (a ++ x :: b).head? ≠ some c := by
  cases a with
  | nil => simpa using hx
  | cons y a =>
    simp only [List.mem_cons, not_or] at h
    simpa using Ne.symm h.1

theorem splitHostPort_plain (host port : GoString)
    (h1 : colon ∉ host) (h2 : lbrack ∉ host) (h3 : rbrack ∉ host)
    (p1 : colon ∉ port) (p2 : lbrack ∉ port) (p3 : rbrack ∉ port) :
    net.SplitHostPort (host ++ str ":" ++ port) = (host, port, none) := by
  have e : host ++ str ":" ++ port = host ++ colon :: port := by simp [str_colon]
  have hl : lbrack ∉ host ++ colon :: port := by
    simp [h2, p2]; decide
  have hr : rbrack ∉ host ++ colon :: port := by
    simp [h3, p3]; decide
  rw [e]
  unfold net.SplitHostPort
  simp only [lastIndexByteString_append host port colon p1]
  rw [if_neg (head?_ne_of_not_mem host port colon lbrack (by decide) h2)]
  simp [slice, indexByteString_eq_none _ _ h1, indexByteString_eq_none _ _ hl,
    indexByteString_eq_none _ _ hr]

theorem splitHostPort_bracketed (h port : GoString)
    (h2 : lbrack ∉ h) (h3 : rbrack ∉ h)
    (p1 : colon ∉ port) (p2 : lbrack ∉ port) (p3 : rbrack ∉ port) :
    net.SplitHostPort (str "[" ++ h ++ str "]:" ++ port) = (h, port, none) := by
  have e : str "[" ++ h ++ str "]:" ++ port = lbrack :: (h ++ rbrack :: colon :: port) := by
    have a : str "[" = [lbrack] := by decide
    have b : str "]:" = [rbrack, colon] := by decide
    simp [a, b]
  have e2 : lbrack :: (h ++ rbrack :: colon :: port) = (lbrack :: (h ++ [rbrack])) ++ colon :: port := by
    simp
  have hi : IndexByteString (lbrack :: (h ++ rbrack :: colon :: port)) rbrack
      = some (h.length + 1) := by
    have := indexByteString_append (lbrack :: h) (colon :: port) rbrack
      (by simp [h3]; decide)
    simpa using this
  have hli : LastIndexByteString (lbrack :: (h ++ rbrack :: colon :: port)) colon
      = some (h.length + 2) := by
    rw [e2, lastIndexByteString_append _ port colon p1]
    simp
  have hl : lbrack ∉ h ++ rbrack :: colon :: port := by
    simp [h2, p2]; decide
  have hr : rbrack ∉ colon :: port := by
    simp [p3]; decide
  rw [e]
  unfold net.SplitHostPort
  simp only [hli, hi]
  simp [slice, indexByteString_eq_none _ _ hl, indexByteString_eq_none _ _ hr]

/-! ## Lemmas on `Config` -/

theorem hostname_of_no_colon {σ : Type} (hostport : GoString) (w : World σ)
    (h : colon ∉ hostport) : Config.hostname hostport w = ((hostport, none), w) := by
  simp [Config.hostname, contains_colon_false hostport h]

theorem hostname_of_split_ok {σ : Type} (hostport host port : GoString) (w : World σ)
    (hc : colon ∈ hostport) (hs : net.SplitHostPort hostport = (host, port, none)) :
    Config.hostname hostport w = ((host, none), w.call (.SplitHostPort hostport)) := by
  have : strings.Contains hostport (str ":") = true := by
    rw [str_colon]; exact (contains_singleton hostport colon).2 hc
  simp [Config.hostname, this, hs]

theorem hostname_of_split_err {σ : Type} (hostport : GoString) (err : GoError) (w : World σ)
    (hc : colon ∈ hostport) (hs : (net.SplitHostPort hostport).2.2 = some err) :
    Config.hostname hostport w = ((hostport, some err), w.call (.SplitHostPort hostport)) := by
  have : strings.Contains hostport (str ":") = true := by
    rw [str_colon]; exact (contains_singleton hostport colon).2 hc
  rcases hsp : net.SplitHostPort hostport with ⟨a, b, e⟩
  simp only [hsp] at hs
  subst hs
  simp [Config.hostname, this, hsp]

/-- No step of the hostname extraction touches the operating system or the heap. -/
theorem hostname_frame {σ : Type} (hostport : GoString) (w : World σ) :
    (Config.hostname hostport w).2.os = w.os
    ∧ (Config.hostname hostport w).2.nextAddr = w.nextAddr := by
  unfold Config.hostname
  dsimp only
  split
  · split <;> simp [World.call]
  · simp

/-- The result of `Config` in Automated mode, from the extracted hostname. -/
theorem config_automated {σ : Type} (sys : OS σ) (g : Globals) (hostport hostname : GoString)
    (w w1 : World σ) (ha : g.FlagAutocert = true)
    (hh : Config.hostname hostport (w.call (.Config hostport)) = ((hostname, none), w1)) :
    Config sys g hostport w =
      ((some { addr := w1.nextAddr + 1,
               val := { Rand := some .rand_Reader, Time := some .time_Now,
                        NextProtos := [str "http/1.1"],
                        GetCertificate := some (.Manager_GetCertificate
                          { addr := w1.nextAddr,
                            val := { Prompt := some .AcceptTOS,
                                     HostPolicy := some (.HostWhitelist [hostname]),
                                     Cache := some (.DirCache g.CertCache) } }),
                        Certificates := [] } }, none),
        { w1 with nextAddr := w1.nextAddr + 2 }) := by
  simp [Config, hh, ha, World.new]

/-- The result of `Config` when the hostname extraction fails. -/
theorem config_hostname_err {σ : Type} (sys : OS σ) (g : Globals) (hostport x : GoString)
    (err : GoError) (w w1 : World σ)
    (hh : Config.hostname hostport (w.call (.Config hostport)) = ((x, some err), w1)) :
    Config sys g hostport w = ((none, some err), w1) := by
  simp [Config, hh]

/-- The result of `Config` in Static mode, from the outcome of the load. -/
theorem config_static {σ : Type} (sys : OS σ) (g : Globals) (hostport hostname : GoString)
    (w w1 : World σ) (hs : g.FlagAutocert = false)
    (hh : Config.hostname hostport (w.call (.Config hostport)) = ((hostname, none), w1)) :
    Config sys g hostport w =
      match sys.LoadX509KeyPair w1.os g.TLSCert g.TLSKey with
      | (_, some err) =>
        ((none, some (.Errorf1 (str "Failed to load TLS cert: %v") err)),
          w1.call (.LoadX509KeyPair g.TLSCert g.TLSKey))
      | (cert, none) =>
        ((some { addr := w1.nextAddr,
                 val := { Rand := some .rand_Reader, Time := some .time_Now,
                          NextProtos := [str "http/1.1"], Certificates := [cert],
                          GetCertificate := none } }, none),
          { w1.call (.LoadX509KeyPair g.TLSCert g.TLSKey) with nextAddr := w1.nextAddr + 1 }) := by
  simp only [Config, hh]
  simp only [hs, World.new, World.call]
  rcases hl : sys.LoadX509KeyPair w1.os g.TLSCert g.TLSKey with ⟨cert, _ | err⟩ <;> simp

/-- The extracted hostname does not depend on the world. -/
theorem hostname_value {σ τ : Type} (hostport : GoString) (w : World σ) (v : World τ) :
    (Config.hostname hostport w).1 = (Config.hostname hostport v).1 := by
  unfold Config.hostname
  dsimp only
  split
  · split <;> simp_all
  · rfl

/-- The calls recorded by the hostname extraction. -/
theorem hostname_trace {σ : Type} (hostport : GoString) (w : World σ) :
    (Config.hostname hostport w).2.trace =
      w.trace ++ (if colon ∈ hostport then [Call.SplitHostPort hostport] else []) := by
  by_cases hc : colon ∈ hostport
  · rcases hsp : net.SplitHostPort hostport with ⟨a, b, _ | e⟩
    · rw [hostname_of_split_ok hostport a b w hc hsp]; simp [World.call, hc]
    · rw [hostname_of_split_err hostport e w hc (by simp [hsp])]; simp [World.call, hc]
  · rw [hostname_of_no_colon hostport w hc]; simp [hc]

theorem callsSince_append {σ : Type} (w w1 : World σ) (cs : List Call)
    (h : w1.trace = w.trace ++ cs) : callsSince w w1 = cs := by
  simp [callsSince, h]

/-- The calls `Config` makes: itself, the split when the address has a colon,
and the load in Static mode when the extraction succeeded. -/
theorem config_trace_eq {σ : Type} (sys : OS σ) (g : Globals) (hostport : GoString)
    (w : World σ) :
    (Config sys g hostport w).2.trace =
      w.trace ++ Call.Config hostport
        :: ((if colon ∈ hostport then [Call.SplitHostPort hostport] else [])
            ++ (if g.FlagAutocert = false ∧ (Config.hostname hostport w).1.2 = none
                then [Call.LoadX509KeyPair g.TLSCert g.TLSKey] else [])) := by
  have ht := hostname_trace hostport (w.call (.Config hostport))
  have hv := hostname_value hostport (w.call (.Config hostport)) w
  rcases hh : Config.hostname hostport (w.call (.Config hostport)) with ⟨⟨x, _ | e⟩, w1⟩
  · rw [hh] at ht hv
    cases ha : g.FlagAutocert
    · rw [config_static sys g hostport x w w1 ha hh]
      rcases sys.LoadX509KeyPair w1.os g.TLSCert g.TLSKey with ⟨cert, _ | err⟩ <;>
        simp [World.call, ← hv] at ht ⊢ <;> simp [ht]
    · rw [config_automated sys g hostport x w w1 ha hh]
      simp [World.call] at ht ⊢
      simp [ht]
  · rw [hh] at ht hv
    rw [config_hostname_err sys g hostport x e w w1 hh]
    simp [World.call, ← hv] at ht ⊢
    simp [ht]

theorem config_trace {σ : Type} (sys : OS σ) (g : Globals) (hostport : GoString) (w : World σ) :
    callsSince w (Config sys g hostport w).2 =
      Call.Config hostport
        :: ((if colon ∈ hostport then [Call.SplitHostPort hostport] else [])
            ++ (if g.FlagAutocert = false ∧ (Config.hostname hostport w).1.2 = none
                then [Call.LoadX509KeyPair g.TLSCert g.TLSKey] else [])) :=
  callsSince_append _ _ _ (config_trace_eq sys g hostport w)

/-- `Config` leaves the operating system as it found it. -/
theorem config_os {σ : Type} (sys : OS σ) (g : Globals) (hostport : GoString) (w : World σ) :
    (Config sys g hostport w).2.os = w.os := by
  have hf := hostname_frame hostport (w.call (.Config hostport))
  rcases hh : Config.hostname hostport (w.call (.Config hostport)) with ⟨⟨x, _ | e⟩, w1⟩
  · rw [hh] at hf
    cases ha : g.FlagAutocert
    · rw [config_static sys g hostport x w w1 ha hh]
      rcases sys.LoadX509KeyPair w1.os g.TLSCert g.TLSKey with ⟨cert, _ | err⟩ <;>
        simpa [World.call] using hf.1
    · rw [config_automated sys g hostport x w w1 ha hh]
      simpa [World.call] using hf.1
  · rw [hh] at hf
    rw [config_hostname_err sys g hostport x e w w1 hh]
    simpa [World.call] using hf.1

/-- The result pair of `Config`, by cases on the hostname extraction, the mode
and the outcome of the load. -/
theorem config_result {σ : Type} (sys : OS σ) (g : Globals) (hostport : GoString)
    (w : World σ) :
    (Config sys g hostport w).1 =
      match (Config.hostname hostport w).1 with
      | (_, some err) => (none, some err)
      | (hostname, none) =>
        if g.FlagAutocert = true then (some (automatedConfig g hostname w.nextAddr), none)
        else
          match sys.LoadX509KeyPair w.os g.TLSCert g.TLSKey with
          | (_, some err) => (none, some (.Errorf1 (str "Failed to load TLS cert: %v") err))
          | (cert, none) => (some (staticConfig cert w.nextAddr), none) := by
  have hf := hostname_frame hostport (w.call (.Config hostport))
  have hv := hostname_value hostport (w.call (.Config hostport)) w
  rcases hh : Config.hostname hostport (w.call (.Config hostport)) with ⟨⟨x, _ | e⟩, w1⟩
  · rw [hh] at hf hv
    simp only [World.call] at hf
    rw [← hv]
    cases ha : g.FlagAutocert
    · rw [config_static sys g hostport x w w1 ha hh, hf.1, hf.2]
      rcases sys.LoadX509KeyPair w.os g.TLSCert g.TLSKey with ⟨cert, _ | err⟩ <;>
        simp [staticConfig]
    · rw [config_automated sys g hostport x w w1 ha hh, hf.2]
      simp [automatedConfig]
  · rw [hh] at hv
    rw [← hv, config_hostname_err sys g hostport x e w w1 hh]

/-- `Config` returns a configuration or an error, never both, never neither. -/
theorem config_xor {σ : Type} (sys : OS σ) (g : Globals) (hostport : GoString) (w : World σ) :
    ((Config sys g hostport w).1.1 = none ↔ (Config sys g hostport w).1.2 ≠ none) := by
  rw [config_result]
  rcases (Config.hostname hostport w).1 with ⟨x, _ | e⟩
  · cases g.FlagAutocert
    · rcases sys.LoadX509KeyPair w.os g.TLSCert g.TLSKey with ⟨cert, _ | err⟩ <;> simp
    · simp
  · simp

/-- The heap after `Config`: two objects more in Automated mode, one more in
Static mode, none when it fails. -/
theorem config_nextAddr {σ : Type} (sys : OS σ) (g : Globals) (hostport : GoString)
    (w : World σ) :
    (Config sys g hostport w).2.nextAddr =
      w.nextAddr + (if (Config sys g hostport w).1.1 = none then 0
                    else if g.FlagAutocert = true then 2 else 1) := by
  have hf := hostname_frame hostport (w.call (.Config hostport))
  rcases hh : Config.hostname hostport (w.call (.Config hostport)) with ⟨⟨x, _ | e⟩, w1⟩
  · rw [hh] at hf
    simp only [World.call] at hf
    cases ha : g.FlagAutocert
    · rw [config_static sys g hostport x w w1 ha hh]
      rcases sys.LoadX509KeyPair w1.os g.TLSCert g.TLSKey with ⟨cert, _ | err⟩ <;>
        simp [World.call, hf.2]
    · rw [config_automated sys g hostport x w w1 ha hh]
      simp [hf.2]
  · rw [hh] at hf
    simp only [World.call] at hf
    rw [config_hostname_err sys g hostport x e w w1 hh]
    simp [hf.2]

/-! ## Lemmas on `Listen` -/

/-- The result pair of `Listen`, by cases on the result of `Config` and of the bind. -/
theorem listen_result {σ : Type} (sys : OS σ) (g : Globals) (hostport : GoString)
    (w : World σ) :
    (Listen sys g hostport w).1 =
      match (Config sys g hostport w).1 with
      | (_, some err) =>
        (none, some (.Errorf1 (str "could not configure TLS connection: %v") err))
      | (tlsConfig, none) =>
        match (sys.Listen w.os (str "tcp") hostport).1 with
        | (_, some err) =>
          (none, some (.Errorf2 (str "could not listen on %q: %v") hostport err))
        | (listener, none) => (some (tls.NewListener listener tlsConfig), none) := by
  have ho := config_os sys g hostport w
  rcases hC : Config sys g hostport w with ⟨⟨c, _ | e⟩, w1⟩
  · rw [hC] at ho
    simp only at ho
    simp only [Listen, hC, World.call, ho]
    rcases sys.Listen w.os (str "tcp") hostport with ⟨⟨l, _ | err⟩, os1⟩ <;> rfl
  · simp only [Listen, hC]

/-- The calls `Listen` makes: those of `Config`, then one bind when `Config` succeeded. -/
theorem listen_trace {σ : Type} (sys : OS σ) (g : Globals) (hostport : GoString)
    (w : World σ) :
    callsSince w (Listen sys g hostport w).2 =
      callsSince w (Config sys g hostport w).2
        ++ (if (Config sys g hostport w).1.2 = none
            then [Call.netListen (str "tcp") hostport] else []) := by
  have ht := config_trace_eq sys g hostport w
  rw [config_trace]
  apply callsSince_append
  rcases hC : Config sys g hostport w with ⟨⟨c, _ | e⟩, w1⟩
  · rw [hC] at ht
    simp only at ht
    simp only [Listen, hC, World.call]
    rcases sys.Listen w1.os (str "tcp") hostport with ⟨⟨l, _ | err⟩, os1⟩ <;> simp [ht]
  · rw [hC] at ht
    simp only at ht
    simp [Listen, hC, ht]

/-- When `Config` fails, `Listen` leaves the operating system as it found it. -/
theorem listen_os_of_config_err {σ : Type} (sys : OS σ) (g : Globals) (hostport : GoString)
    (w : World σ) (err : GoError) (h : (Config sys g hostport w).1.2 = some err) :
    (Listen sys g hostport w).2.os = w.os := by
  have ho := config_os sys g hostport w
  rcases hC : Config sys g hostport w with ⟨⟨c, e⟩, w1⟩
  rw [hC] at ho h
  simp only at ho h
  subst h
  simp [Listen, hC, ho]

/-! ## Lemmas on the host policy -/

theorem lowerLDD_byte (b : Byte) (h : (isLower b || isDigit b || b == dot) = true) :
    disallowedSTD3 b = false
    ∧ (isUpper b || isLower b || isDigit b || b == dot) = true
    ∧ toLower b = b := by
  have hu : isLower b = true ∨ isDigit b = true ∨ b = dot := by
    simpa [or_assoc] using h
  have hup : isUpper b = false := by
    rcases hu with h1 | h1 | h1
    · simp only [isLower, decide_eq_true_eq] at h1
      simp only [isUpper, decide_eq_false_iff_not]
      omega
    · simp only [isDigit, decide_eq_true_eq] at h1
      simp only [isUpper, decide_eq_false_iff_not]
      omega
    · subst h1; decide
  refine ⟨?_, ?_, ?_⟩
  · rcases hu with h1 | h1 | h1
    · simp [disallowedSTD3, h1]
    · simp [disallowedSTD3, h1]
    · subst h1; decide
  · rcases hu with h1 | h1 | h1
    · simp [h1]
    · simp [h1]
    · subst h1; decide
  · simp [toLower, hup]

/-- A name of lower-case letters, digits and dots converts to itself. -/
theorem toASCII_of_lowerLDD (rest : GoString → Option GoString) (s : GoString)
    (h : lowerLDD s = true) : idna.Lookup.ToASCII rest s = some s := by
  have hb : ∀ b ∈ s, disallowedSTD3 b = false
      ∧ (isUpper b || isLower b || isDigit b || b == dot) = true ∧ toLower b = b := by
    intro b hb
    exact lowerLDD_byte b (by
      have := List.all_eq_true.1 h b hb
      simpa using this)
  have h1 : s.any disallowedSTD3 = false := by
    rw [List.any_eq_false]
    intro b hm
    simp [(hb b hm).1]
  have h2 : s.all (fun b => isUpper b || isLower b || isDigit b || b == dot) = true := by
    rw [List.all_eq_true]
    intro b hm
    exact (hb b hm).2.1
  have h3 : s.map toLower = s := by
    conv_rhs => rw [← List.map_id s]
    exact List.map_congr_left (fun b hm => (hb b hm).2.2)
  simp [idna.Lookup.ToASCII, h1, h2, h3]

/-! ## The claims -/

/-- C1: for `host` and `port` free of `':'`, `'['` and `']'`, the hostname that
`Config` extracts from `host + ":" + port` is exactly `host`, whatever the
port, and it is the name handed to `autocert.HostWhitelist`; for `h` free of
brackets, the hostname extracted from `"[" + h + "]:" + port` is `h`. -/
theorem C1_hostname_is_host_segment {σ : Type} (sys : OS σ) (g : Globals) (w : World σ)
    (host port port2 h : GoString)
    (h1 : colon ∉ host) (h2 : lbrack ∉ host) (h3 : rbrack ∉ host)
    (p1 : colon ∉ port) (p2 : lbrack ∉ port) (p3 : rbrack ∉ port)
    (q1 : colon ∉ port2) (q2 : lbrack ∉ port2) (q3 : rbrack ∉ port2)
    (b2 : lbrack ∉ h) (b3 : rbrack ∉ h) :
    (Config.hostname (host ++ str ":" ++ port) w).1 = (host, none)
    ∧ (Config.hostname (host ++ str ":" ++ port2) w).1
        = (Config.hostname (host ++ str ":" ++ port) w).1
    ∧ (Config.hostname (str "[" ++ h ++ str "]:" ++ port) w).1 = (h, none)
    ∧ (g.FlagAutocert = true →
        whitelistOf (Config sys g (host ++ str ":" ++ port) w).1.1 = some [host]
        ∧ whitelistOf (Config sys g (str "[" ++ h ++ str "]:" ++ port) w).1.1 = some [h]) := by
  have c1 : ∀ p : GoString, colon ∈ host ++ str ":" ++ p := by
    intro p; simp [str_colon]
  have c2 : colon ∈ str "[" ++ h ++ str "]:" ++ port := by
    have b : str "]:" = [rbrack, colon] := by decide
    simp [b]
  have e1 : (Config.hostname (host ++ str ":" ++ port) w).1 = (host, none) := by
    rw [hostname_of_split_ok _ host port w (c1 port)
      (splitHostPort_plain host port h1 h2 h3 p1 p2 p3)]
  have e2 : (Config.hostname (host ++ str ":" ++ port2) w).1 = (host, none) := by
    rw [hostname_of_split_ok _ host port2 w (c1 port2)
      (splitHostPort_plain host port2 h1 h2 h3 q1 q2 q3)]
  have e3 : (Config.hostname (str "[" ++ h ++ str "]:" ++ port) w).1 = (h, none) := by
    rw [hostname_of_split_ok _ h port w c2 (splitHostPort_bracketed h port b2 b3 p1 p2 p3)]
  refine ⟨e1, e2.trans e1.symm, e3, fun ha => ⟨?_, ?_⟩⟩
  · rw [config_result, e1]
    simp [ha, whitelistOf, managerOf, automatedConfig]
  · rw [config_result, e3]
    simp [ha, whitelistOf, managerOf, automatedConfig]

/-- C1 at `example.com:443`, `example.com:8443` and `[::1]:443`. -/
theorem C1_hostname_is_host_segment_witness :
    (colon ∉ str "example.com" ∧ lbrack ∉ str "example.com" ∧ rbrack ∉ str "example.com"
      ∧ colon ∉ str "443" ∧ lbrack ∉ str "443" ∧ rbrack ∉ str "443"
      ∧ colon ∉ str "8443" ∧ lbrack ∉ str "8443" ∧ rbrack ∉ str "8443"
      ∧ lbrack ∉ str "::1" ∧ rbrack ∉ str "::1")
    ∧ whitelistOf (Config demoOS (demoGlobals true) (str "example.com" ++ str ":" ++ str "443")
        (demoWorld [] [])).1.1 = some [str "example.com"]
    ∧ whitelistOf (Config demoOS (demoGlobals true) (str "[" ++ str "::1" ++ str "]:" ++ str "443")
        (demoWorld [] [])).1.1 = some [str "::1"] :=
  ⟨by decide,
   (C1_hostname_is_host_segment demoOS (demoGlobals true) (demoWorld [] [])
      (str "example.com") (str "443") (str "8443") (str "::1")
      (by decide) (by decide) (by decide) (by decide) (by decide) (by decide)
      (by decide) (by decide) (by decide) (by decide) (by decide)).2.2.2 rfl⟩

/-- C2: when the address has a colon and `net.SplitHostPort` rejects it with
`err`, `Config` returns a nil configuration and exactly `err`, whatever the
mode; it calls `net.SplitHostPort` and nothing else (it does not load the
certificate or key file), and allocates nothing. -/
theorem C2_parse_error_is_returned {σ : Type} (sys : OS σ) (g : Globals) (w : World σ)
    (hostport : GoString) (err : GoError)
    (hc : colon ∈ hostport) (he : (net.SplitHostPort hostport).2.2 = some err) :
    (Config sys g hostport w).1 = (none, some err)
    ∧ callsSince w (Config sys g hostport w).2
        = [Call.Config hostport, Call.SplitHostPort hostport]
    ∧ (Config sys g hostport w).2.os = w.os := by
  have hh := hostname_of_split_err hostport err w hc he
  refine ⟨?_, ?_, config_os sys g hostport w⟩
  · rw [config_result, hh]
  · rw [config_trace, hh]
    simp [hc]

/-- C2 at `host:port:extra`, in Static mode with no file present. -/
theorem C2_parse_error_is_returned_witness :
    (colon ∈ str "host:port:extra"
      ∧ (net.SplitHostPort (str "host:port:extra")).2.2
          = some (.AddrError (str "too many colons in address") (str "host:port:extra")))
    ∧ (Config demoOS (demoGlobals false) (str "host:port:extra") (demoWorld [] [])).1
        = (none, some (.AddrError (str "too many colons in address") (str "host:port:extra")))
    ∧ callsSince (demoWorld [] [])
          (Config demoOS (demoGlobals false) (str "host:port:extra") (demoWorld [] [])).2
        = [Call.Config (str "host:port:extra"), Call.SplitHostPort (str "host:port:extra")] :=
  ⟨by decide,
   (C2_parse_error_is_returned demoOS (demoGlobals false) (demoWorld [] [])
      (str "host:port:extra")
      (.AddrError (str "too many colons in address") (str "host:port:extra"))
      (by decide) (by decide)).1,
   (C2_parse_error_is_returned demoOS (demoGlobals false) (demoWorld [] [])
      (str "host:port:extra")
      (.AddrError (str "too many colons in address") (str "host:port:extra"))
      (by decide) (by decide)).2.1⟩

/-- C3: for an address without a colon, `Config` does not call
`net.SplitHostPort`, takes the whole address as hostname (the name handed to
`autocert.HostWhitelist`), and any error it returns is not a `*net.AddrError`. -/
theorem C3_bare_hostname_unchanged {σ : Type} (sys : OS σ) (g : Globals) (w : World σ)
    (hostport : GoString) (hc : colon ∉ hostport) :
    Config.hostname hostport w = ((hostport, none), w)
    ∧ (callsSince w (Config sys g hostport w).2).filter Call.isSplitHostPort = []
    ∧ (g.FlagAutocert = true →
        whitelistOf (Config sys g hostport w).1.1 = some [hostport])
    ∧ (∀ e : GoError, (Config sys g hostport w).1.2 = some e → e.isAddrError = false) := by
  have hh := hostname_of_no_colon hostport w hc
  refine ⟨hh, ?_, ?_, ?_⟩
  · rw [config_trace, hh]
    cases g.FlagAutocert <;> simp [hc, Call.isSplitHostPort]
  · intro ha
    rw [config_result, hh]
    simp [ha, whitelistOf, managerOf, automatedConfig]
  · intro e
    rw [config_result, hh]
    cases g.FlagAutocert
    · rcases sys.LoadX509KeyPair w.os g.TLSCert g.TLSKey with ⟨cert, _ | err⟩
      · simp
      · simp only [Bool.false_eq_true, if_false]
        intro h
        cases h
        rfl
    · simp

/-- C3 at `example.com`, in Automated mode. -/
theorem C3_bare_hostname_unchanged_witness :
    colon ∉ str "example.com"
    ∧ whitelistOf (Config demoOS (demoGlobals true) (str "example.com") (demoWorld [] [])).1.1
        = some [str "example.com"] :=
  ⟨by decide,
   (C3_bare_hostname_unchanged demoOS (demoGlobals true) (demoWorld [] [])
      (str "example.com") (by decide)).2.2.1 rfl⟩

/-- C4: in Automated mode, when the hostname extraction succeeds, `Config`
returns a nil error and a configuration with a `GetCertificate` function and
no certificate; it does not call `tls.LoadX509KeyPair`, and the result is the
same under every operating system `sys2` in every state `os2`. -/
theorem C4_automated_always_succeeds {σ : Type} (sys sys2 : OS σ) (os2 : σ) (g : Globals)
    (w : World σ) (hostport : GoString)
    (ha : g.FlagAutocert = true) (hh : (Config.hostname hostport w).1.2 = none) :
    (Config sys g hostport w).1.2 = none
    ∧ (Config sys g hostport w).1.1 ≠ none
    ∧ (∀ c : Ref tls.Config, (Config sys g hostport w).1.1 = some c →
        c.val.GetCertificate ≠ none ∧ c.val.Certificates = [])
    ∧ (callsSince w (Config sys g hostport w).2).filter Call.isLoadX509KeyPair = []
    ∧ (Config sys2 g hostport { w with os := os2 }).1 = (Config sys g hostport w).1 := by
  have hv := hostname_value hostport ({ w with os := os2 } : World σ) w
  rcases hn : (Config.hostname hostport w).1 with ⟨x, e⟩
  rw [hn] at hh hv
  simp only at hh
  subst hh
  refine ⟨?_, ?_, ?_, ?_, ?_⟩
  · rw [config_result, hn]; simp [ha]
  · rw [config_result, hn]; simp [ha]
  · intro c
    rw [config_result, hn]
    simp only [ha, if_true, Option.some.injEq]
    intro h
    subst h
    simp [automatedConfig]
  · rw [config_trace]
    by_cases hc : colon ∈ hostport <;> simp [ha, hc, Call.isLoadX509KeyPair]
  · rw [config_result, config_result, hn, hv]
    simp [ha]

/-- C4 at `example.com:443` with no file present, against a state with both files. -/
theorem C4_automated_always_succeeds_witness :
    ((demoGlobals true).FlagAutocert = true
      ∧ (Config.hostname (str "example.com:443") (demoWorld [] [])).1.2 = none)
    ∧ (Config demoOS (demoGlobals true) (str "example.com:443") (demoWorld [] [])).1.2 = none
    ∧ (Config demoOS (demoGlobals true) (str "example.com:443")
        { demoWorld [] [] with
          os := { files := [str "/home/u/keys/cert.pem", str "/home/u/keys/key.pem"],
                  bound := [] } }).1
      = (Config demoOS (demoGlobals true) (str "example.com:443") (demoWorld [] [])).1 :=
  ⟨by decide,
   (C4_automated_always_succeeds demoOS demoOS
      { files := [str "/home/u/keys/cert.pem", str "/home/u/keys/key.pem"], bound := [] }
      (demoGlobals true) (demoWorld [] []) (str "example.com:443") rfl (by decide)).1,
   (C4_automated_always_succeeds demoOS demoOS
      { files := [str "/home/u/keys/cert.pem", str "/home/u/keys/key.pem"], bound := [] }
      (demoGlobals true) (demoWorld [] []) (str "example.com:443") rfl (by decide)).2.2.2.2⟩

/-- C5: in Static mode, when the hostname extraction succeeds, `Config` loads
the pair `(TLSCert, TLSKey)` once; when the load succeeds with `cert` it
returns a nil error and a configuration whose `Certificates` is `[cert]` and
whose `GetCertificate` is nil; when the load fails with `err` it returns a nil
configuration and the error `fmt.Errorf("Failed to load TLS cert: %v", err)`. -/
theorem C5_static_load_decides {σ : Type} (sys : OS σ) (g : Globals) (w : World σ)
    (hostport : GoString)
    (hs : g.FlagAutocert = false) (hh : (Config.hostname hostport w).1.2 = none) :
    (callsSince w (Config sys g hostport w).2).filter Call.isLoadX509KeyPair
        = [Call.LoadX509KeyPair g.TLSCert g.TLSKey]
    ∧ (∀ cert : tls.Certificate,
        sys.LoadX509KeyPair w.os g.TLSCert g.TLSKey = (cert, none) →
        (Config sys g hostport w).1.2 = none
        ∧ (Config sys g hostport w).1.1.map (fun c => c.val.Certificates) = some [cert]
        ∧ (Config sys g hostport w).1.1.map (fun c => c.val.GetCertificate) = some none)
    ∧ (∀ (cert : tls.Certificate) (err : GoError),
        sys.LoadX509KeyPair w.os g.TLSCert g.TLSKey = (cert, some err) →
        (Config sys g hostport w).1
          = (none, some (.Errorf1 (str "Failed to load TLS cert: %v") err))) := by
  rcases hn : (Config.hostname hostport w).1 with ⟨x, e⟩
  rw [hn] at hh
  simp only at hh
  subst hh
  refine ⟨?_, ?_, ?_⟩
  · rw [config_trace, hn]
    by_cases hc : colon ∈ hostport <;> simp [hs, hc, Call.isLoadX509KeyPair]
  · intro cert hl
    rw [config_result, hn]
    simp [hs, hl, staticConfig]
  · intro cert err hl
    rw [config_result, hn]
    simp [hs, hl]

/-- C5 at `example.com:443`: with both files present, and with the key file missing. -/
theorem C5_static_load_decides_witness :
    ((demoGlobals false).FlagAutocert = false
      ∧ (Config.hostname (str "example.com:443")
          (demoWorld [str "/home/u/keys/cert.pem", str "/home/u/keys/key.pem"] [])).1.2 = none
      ∧ (Config.hostname (str "example.com:443")
          (demoWorld [str "/home/u/keys/cert.pem"] [])).1.2 = none)
    ∧ (Config demoOS (demoGlobals false) (str "example.com:443")
        (demoWorld [str "/home/u/keys/cert.pem", str "/home/u/keys/key.pem"] [])).1.1.map
          (fun c => c.val.Certificates)
        = some [{ Certificate := [str "/home/u/keys/cert.pem"],
                  PrivateKey := str "/home/u/keys/key.pem" }]
    ∧ (Config demoOS (demoGlobals false) (str "example.com:443")
        (demoWorld [str "/home/u/keys/cert.pem"] [])).1
        = (none, some (.Errorf1 (str "Failed to load TLS cert: %v")
            (.foreign (str "open: no such file or directory")))) :=
  ⟨by decide,
   ((C5_static_load_decides demoOS (demoGlobals false)
      (demoWorld [str "/home/u/keys/cert.pem", str "/home/u/keys/key.pem"] [])
      (str "example.com:443") rfl (by decide)).2.1
        { Certificate := [str "/home/u/keys/cert.pem"], PrivateKey := str "/home/u/keys/key.pem" }
        (by decide)).2.1,
   (C5_static_load_decides demoOS (demoGlobals false)
      (demoWorld [str "/home/u/keys/cert.pem"] [])
      (str "example.com:443") rfl (by decide)).2.2
        { Certificate := [], PrivateKey := [] }
        (.foreign (str "open: no such file or directory")) (by decide)⟩

/-- C6: every configuration that `Config` returns has `NextProtos` equal to
`["http/1.1"]`, `Rand` equal to `rand.Reader` and `Time` equal to `time.Now`. -/
theorem C6_next_protos_http11 {σ : Type} (sys : OS σ) (g : Globals) (w : World σ)
    (hostport : GoString) (c : Ref tls.Config)
    (h : (Config sys g hostport w).1.1 = some c) :
    c.val.NextProtos = [str "http/1.1"]
    ∧ c.val.Rand = some Reader.rand_Reader
    ∧ c.val.Time = some TimeFunc.time_Now := by
  rw [config_result] at h
  rcases hn : (Config.hostname hostport w).1 with ⟨x, _ | e⟩ <;> rw [hn] at h
  · cases ha : g.FlagAutocert <;> rw [ha] at h
    · rcases hl : sys.LoadX509KeyPair w.os g.TLSCert g.TLSKey with ⟨cert, _ | err⟩ <;>
        rw [hl] at h
      · simp only [Bool.false_eq_true, if_false, Option.some.injEq] at h
        subst h
        simp [staticConfig]
      · simp at h
    · simp only [if_true, Option.some.injEq] at h
      subst h
      simp [automatedConfig]
  · simp at h

/-- C6 at `example.com:443` in Automated mode. -/
theorem C6_next_protos_http11_witness :
    (Config demoOS (demoGlobals true) (str "example.com:443") (demoWorld [] [])).1.1
        = some (automatedConfig (demoGlobals true) (str "example.com") 0)
    ∧ (automatedConfig (demoGlobals true) (str "example.com") 0).val.NextProtos
        = [str "http/1.1"] :=
  ⟨by decide,
   (C6_next_protos_http11 demoOS (demoGlobals true) (demoWorld [] []) (str "example.com:443")
      (automatedConfig (demoGlobals true) (str "example.com") 0) (by decide)).1⟩

/-- C7: `Listen` returns a listener or an error, never both and never neither;
and when `Config` fails with `err`, `Listen` returns a nil listener and the
error `fmt.Errorf("could not configure TLS connection: %v", err)`, does not
call `net.Listen`, and leaves the operating system as it found it. -/
theorem C7_listen_wraps_config_error {σ : Type} (sys : OS σ) (g : Globals) (w : World σ)
    (hostport : GoString) :
    ((Listen sys g hostport w).1.1 = none ↔ (Listen sys g hostport w).1.2 ≠ none)
    ∧ (∀ err : GoError, (Config sys g hostport w).1.2 = some err →
        (Listen sys g hostport w).1
          = (none, some (.Errorf1 (str "could not configure TLS connection: %v") err))
        ∧ (callsSince w (Listen sys g hostport w).2).filter Call.isNetListen = []
        ∧ (Listen sys g hostport w).2.os = w.os) := by
  refine ⟨?_, ?_⟩
  · rw [listen_result]
    rcases (Config sys g hostport w).1 with ⟨c, _ | e⟩
    · rcases (sys.Listen w.os (str "tcp") hostport).1 with ⟨l, _ | err⟩ <;> simp
    · simp
  · intro err he
    refine ⟨?_, ?_, listen_os_of_config_err sys g hostport w err he⟩
    · rw [listen_result]
      rcases hC : (Config sys g hostport w).1 with ⟨c, e⟩
      rw [hC] at he
      simp only at he
      subst he
      rfl
    · rw [listen_trace, config_trace, he]
      by_cases hc : colon ∈ hostport <;>
        by_cases hl : g.FlagAutocert = false ∧ (Config.hostname hostport w).1.2 = none <;>
        simp [hc, hl, Call.isNetListen]

/-- C7 at `host:port:extra`. -/
theorem C7_listen_wraps_config_error_witness :
    (Config demoOS (demoGlobals true) (str "host:port:extra") (demoWorld [] [])).1.2
        = some (.AddrError (str "too many colons in address") (str "host:port:extra"))
    ∧ (Listen demoOS (demoGlobals true) (str "host:port:extra") (demoWorld [] [])).1
        = (none, some (.Errorf1 (str "could not configure TLS connection: %v")
            (.AddrError (str "too many colons in address") (str "host:port:extra")))) :=
  ⟨by decide,
   ((C7_listen_wraps_config_error demoOS (demoGlobals true) (demoWorld [] [])
      (str "host:port:extra")).2 _ (by decide)).1⟩

/-- C8: every call of `Listen` calls `Config` once, on the address it was
given, and `net.Listen` at most once; when `Config` succeeds and
`net.Listen("tcp", hostport)` fails with `err`, `Listen` returns a nil listener
and the error `fmt.Errorf("could not listen on %q: %v", hostport, err)`, after
one call of `net.Listen`, made on `"tcp"` and the address it was given. -/
theorem C8_listen_wraps_bind_error {σ : Type} (sys : OS σ) (g : Globals) (w : World σ)
    (hostport : GoString) :
    (callsSince w (Listen sys g hostport w).2).filter Call.isConfig = [Call.Config hostport]
    ∧ ((callsSince w (Listen sys g hostport w).2).filter Call.isNetListen).length ≤ 1
    ∧ (∀ (l : Option TCPListener) (err : GoError),
        (Config sys g hostport w).1.2 = none →
        (sys.Listen w.os (str "tcp") hostport).1 = (l, some err) →
        (Listen sys g hostport w).1
          = (none, some (.Errorf2 (str "could not listen on %q: %v") hostport err))
        ∧ (callsSince w (Listen sys g hostport w).2).filter Call.isNetListen
            = [Call.netListen (str "tcp") hostport]) := by
  have ht : callsSince w (Listen sys g hostport w).2 =
      Call.Config hostport
        :: ((if colon ∈ hostport then [Call.SplitHostPort hostport] else [])
            ++ (if g.FlagAutocert = false ∧ (Config.hostname hostport w).1.2 = none
                then [Call.LoadX509KeyPair g.TLSCert g.TLSKey] else []))
        ++ (if (Config sys g hostport w).1.2 = none
            then [Call.netListen (str "tcp") hostport] else []) := by
    rw [listen_trace, config_trace]
  refine ⟨?_, ?_, ?_⟩
  · rw [ht]
    by_cases hc : colon ∈ hostport <;>
      by_cases hl : g.FlagAutocert = false ∧ (Config.hostname hostport w).1.2 = none <;>
      by_cases he : (Config sys g hostport w).1.2 = none <;>
      simp [hc, hl, he, Call.isConfig]
  · rw [ht]
    by_cases hc : colon ∈ hostport <;>
      by_cases hl : g.FlagAutocert = false ∧ (Config.hostname hostport w).1.2 = none <;>
      by_cases he : (Config sys g hostport w).1.2 = none <;>
      simp [hc, hl, he, Call.isNetListen]
  · intro l err he hb
    refine ⟨?_, ?_⟩
    · rw [listen_result]
      rcases hC : (Config sys g hostport w).1 with ⟨c, e⟩
      rw [hC] at he
      simp only at he
      subst he
      simp [hb]
    · rw [ht]
      by_cases hc : colon ∈ hostport <;>
        by_cases hl : g.FlagAutocert = false ∧ (Config.hostname hostport w).1.2 = none <;>
        simp [hc, hl, he, Call.isNetListen]

/-- C8 at `example.com:443`, already bound by another listener. -/
theorem C8_listen_wraps_bind_error_witness :
    ((Config demoOS (demoGlobals true) (str "example.com:443")
        (demoWorld [] [str "example.com:443"])).1.2 = none
      ∧ (demoOS.Listen (demoWorld [] [str "example.com:443"]).os (str "tcp")
          (str "example.com:443")).1
          = (none, some (.foreign (str "bind: address already in use"))))
    ∧ (Listen demoOS (demoGlobals true) (str "example.com:443")
        (demoWorld [] [str "example.com:443"])).1
        = (none, some (.Errorf2 (str "could not listen on %q: %v") (str "example.com:443")
            (.foreign (str "bind: address already in use"))))
    ∧ (callsSince (demoWorld [] [str "example.com:443"])
        (Listen demoOS (demoGlobals true) (str "example.com:443")
          (demoWorld [] [str "example.com:443"])).2).filter Call.isNetListen
        = [Call.netListen (str "tcp") (str "example.com:443")] :=
  ⟨by decide,
   (C8_listen_wraps_bind_error demoOS (demoGlobals true) (demoWorld [] [str "example.com:443"])
      (str "example.com:443")).2.2 none (.foreign (str "bind: address already in use"))
      (by decide) (by decide)⟩

/-- C9 (as amended): in Automated mode, when the hostname extraction yields
`hostname`, the manager behind the returned configuration has `Prompt` equal to
`autocert.AcceptTOS`, `HostPolicy` equal to `autocert.HostWhitelist(hostname)`
and `Cache` equal to `autocert.DirCache(CertCache)`; its host policy returns
nil for `name` exactly when `idna.Lookup.ToASCII` converts `hostname` to `name`
without error; for a hostname of lower-case letters, digits and dots that is
exactly when `name` is `hostname`. -/
theorem C9_manager_whitelists_hostname {σ : Type} (sys : OS σ) (g : Globals) (w : World σ)
    (rest : GoString → Option GoString) (hostport hostname name : GoString)
    (ha : g.FlagAutocert = true) (hh : (Config.hostname hostport w).1 = (hostname, none)) :
    managerOf (Config sys g hostport w).1.1
        = some { Prompt := some .AcceptTOS,
                 HostPolicy := some (.HostWhitelist [hostname]),
                 Cache := some (.DirCache g.CertCache) }
    ∧ (∀ (m : autocert.Manager) (p : autocert.HostPolicy),
        managerOf (Config sys g hostport w).1.1 = some m → m.HostPolicy = some p →
        (p.call rest name = none ↔ idna.Lookup.ToASCII rest hostname = some name)
        ∧ (lowerLDD hostname = true → (p.call rest name = none ↔ name = hostname))) := by
  have hm : managerOf (Config sys g hostport w).1.1
      = some { Prompt := some .AcceptTOS,
               HostPolicy := some (.HostWhitelist [hostname]),
               Cache := some (.DirCache g.CertCache) } := by
    rw [config_result, hh]
    simp [ha, managerOf, automatedConfig]
  refine ⟨hm, ?_⟩
  intro m p h hp
  rw [hm] at h
  simp only [Option.some.injEq] at h
  subst h
  simp only [Option.some.injEq] at hp
  subst hp
  have hcall : (autocert.HostPolicy.HostWhitelist [hostname]).call rest name = none
      ↔ idna.Lookup.ToASCII rest hostname = some name := by
    cases hc : idna.Lookup.ToASCII rest hostname with
    | none => simp [autocert.HostPolicy.call, hc]
    | some h =>
      by_cases hn : name = h
      · simp [autocert.HostPolicy.call, hc, hn]
      · simp [autocert.HostPolicy.call, hc, hn, Ne.symm hn]
  refine ⟨hcall, fun hl => ?_⟩
  rw [hcall, toASCII_of_lowerLDD rest hostname hl]
  simp [eq_comm]

/-- C9 (as amended) at `example.com:443`: the policy accepts `example.com`. -/
theorem C9_manager_whitelists_hostname_witness :
    ((demoGlobals true).FlagAutocert = true
      ∧ (Config.hostname (str "example.com:443") (demoWorld [] [])).1
          = (str "example.com", none)
      ∧ lowerLDD (str "example.com") = true)
    ∧ managerOf (Config demoOS (demoGlobals true) (str "example.com:443") (demoWorld [] [])).1.1
        = some { Prompt := some .AcceptTOS,
                 HostPolicy := some (.HostWhitelist [str "example.com"]),
                 Cache := some (.DirCache (str "/home/u/keys/letsencrypt.cache")) }
    ∧ ((autocert.HostPolicy.HostWhitelist [str "example.com"]).call (fun _ => none)
          (str "example.com") = none ↔ str "example.com" = str "example.com") :=
  ⟨by decide,
   (C9_manager_whitelists_hostname demoOS (demoGlobals true) (demoWorld [] []) (fun _ => none)
      (str "example.com:443") (str "example.com") (str "example.com") rfl (by decide)).1,
   ((C9_manager_whitelists_hostname demoOS (demoGlobals true) (demoWorld [] []) (fun _ => none)
      (str "example.com:443") (str "example.com") (str "example.com") rfl (by decide)).2
      { Prompt := some .AcceptTOS,
        HostPolicy := some (.HostWhitelist [str "example.com"]),
        Cache := some (.DirCache (str "/home/u/keys/letsencrypt.cache")) }
      (.HostWhitelist [str "example.com"]) (by decide) rfl).2 (by decide)⟩

/-- C9 as first stated fails at `Example.COM:443` in Automated mode: the
extracted hostname is `Example.COM`, the manager's policy is
`autocert.HostWhitelist("Example.COM")`, and that policy rejects the name
`Example.COM` (it accepts `example.com`). The unmodelled part of the
conversion plays no role at this input. -/
theorem C9_policy_rejects_extracted_hostname :
    (demoGlobals true).FlagAutocert = true
    ∧ (Config.hostname (str "Example.COM:443") (demoWorld [] [])).1
        = (str "Example.COM", none)
    ∧ (managerOf (Config demoOS (demoGlobals true) (str "Example.COM:443")
        (demoWorld [] [])).1.1).map (fun m => m.HostPolicy)
        = some (some (.HostWhitelist [str "Example.COM"]))
    ∧ ¬ ((autocert.HostPolicy.HostWhitelist [str "Example.COM"]).call (fun _ => none)
          (str "Example.COM") = none ↔ str "Example.COM" = str "Example.COM")
    ∧ (autocert.HostPolicy.HostWhitelist [str "Example.COM"]).call (fun _ => none)
          (str "example.com") = none := by
  decide

/-- C10: a second call of `Config` with the same address, package variables
and operating-system state, made after a first one, returns the same error,
and a configuration equivalent to the first (same certificate source, same
protocol list); when both succeed the two configurations are distinct objects. -/
theorem C10_config_idempotent {σ : Type} (sys : OS σ) (g : Globals) (w : World σ)
    (hostport : GoString) :
    (Config sys g hostport (Config sys g hostport w).2).1.2 = (Config sys g hostport w).1.2
    ∧ equivalent (Config sys g hostport (Config sys g hostport w).2).1.1
        (Config sys g hostport w).1.1
    ∧ (∀ c1 c2 : Ref tls.Config, (Config sys g hostport w).1.1 = some c1 →
        (Config sys g hostport (Config sys g hostport w).2).1.1 = some c2 →
        c1.addr ≠ c2.addr) := by
  have hv := hostname_value hostport (Config sys g hostport w).2 w
  have ho := config_os sys g hostport w
  have hn := config_nextAddr sys g hostport w
  rw [config_result sys g hostport w] at hn
  rw [config_result sys g hostport (Config sys g hostport w).2, config_result sys g hostport w,
    hv, ho, hn]
  rcases (Config.hostname hostport w).1 with ⟨x, _ | e⟩
  · cases g.FlagAutocert
    · rcases sys.LoadX509KeyPair w.os g.TLSCert g.TLSKey with ⟨cert, _ | err⟩
      · simp [equivalent, certSourceOf, staticConfig]
      · simp [equivalent]
    · simp [equivalent, certSourceOf, automatedConfig]
  · simp [equivalent]

/-- C10 at `example.com:443` in Automated mode: the second call builds a fresh
manager and configuration, equivalent to the first. -/
theorem C10_config_idempotent_witness :
    ((Config demoOS (demoGlobals true) (str "example.com:443") (demoWorld [] [])).1.1
        = some (automatedConfig (demoGlobals true) (str "example.com") 0)
      ∧ (Config demoOS (demoGlobals true) (str "example.com:443")
          (Config demoOS (demoGlobals true) (str "example.com:443") (demoWorld [] [])).2).1.1
        = some (automatedConfig (demoGlobals true) (str "example.com") 2))
    ∧ (automatedConfig (demoGlobals true) (str "example.com") 0).addr
        ≠ (automatedConfig (demoGlobals true) (str "example.com") 2).addr :=
  ⟨by decide,
   (C10_config_idempotent demoOS (demoGlobals true) (demoWorld [] [])
      (str "example.com:443")).2.2 _ _ (by decide) (by decide)⟩

end simpletls
